import Mathlib

/-!
Verification of `scripts/face_matcher.py`.

The script delegates all image work to the external `face_recognition`
library; we model that library as a record of effectful calls, each of which
either returns a value or raises an exception (modelled as `Except String`,
the string being the Python `str(e)` of the raised exception).  Images and
face encodings are opaque, so we model them as natural-number identifiers.
Numeric similarity arithmetic is modelled exactly over ℚ.

The result dictionaries built by the script are modelled as ordered lists of
key/value pairs (`JsonObj`), so that the exact field shape of each returned
object is visible to the theorems.
-/

namespace FaceMatcher

/-- A JSON value as produced by the script: booleans (`success`, `match`),
numbers (`similarity`) and strings (`error`). -/
inductive JsonVal where
  | bool : Bool → JsonVal
  | num : ℚ → JsonVal
  | str : String → JsonVal
deriving DecidableEq, Repr

/-- A JSON object: the Python dict literals of the script, with field order
preserved. -/
abbrev JsonObj := List (String × JsonVal)

/-- Look up a field of a result object by key (first occurrence). -/
def getField (o : JsonObj) (k : String) : Option JsonVal :=
  (o.find? (fun kv => kv.1 == k)).map (fun kv => kv.2)

/-- The behaviour of the external `face_recognition` library during one
invocation.  `load_image_file` maps a path to an image (or raises),
`face_encodings` maps an image to the list of face encodings detected in it
(or raises), and `face_distance` maps a list of known encodings and a face to
the array of distances (or raises), exactly the three calls the script
makes. -/
structure Lib where
  load_image_file : String → Except String Nat
  face_encodings : Nat → Except String (List Nat)
  face_distance : List Nat → Nat → Except String (List ℚ)

/-- The `success: False` dict literal used by every failure path of
`match_faces`. -/
def errObj (e : String) : JsonObj :=
  [("success", JsonVal.bool false), ("error", JsonVal.str e)]

/-- The `success: True` dict literal returned on the happy path of
`match_faces`. -/
def okObj (similarity : ℚ) (m : Bool) : JsonObj :=
  [("success", JsonVal.bool true), ("similarity", JsonVal.num similarity),
   ("match", JsonVal.bool m)]

/-- The body of the `try:` block of `match_faces`: a normal `return` is
`Except.ok`, a raised exception is `Except.error` carrying `str(e)`.
The `[0]` indexing of the `face_distance` result raises an `IndexError`
when the library returns an empty array, as in Python. -/
def match_facesE (lib : Lib) (frame_path profile_path : String) :
    Except String JsonObj := do
  let frame_image ← lib.load_image_file frame_path
  let profile_image ← lib.load_image_file profile_path
  let frame_encodings ← lib.face_encodings frame_image
  let profile_encodings ← lib.face_encodings profile_image
  if frame_encodings.length = 0 then
    return errObj "No face detected in verification video"
  else if profile_encodings.length = 0 then
    return errObj "No face detected in profile photo"
  else if frame_encodings.length > 1 then
    return errObj "Multiple faces detected in video"
  else
    let frame_encoding := frame_encodings.headD 0
    let profile_encoding := profile_encodings.headD 0
    let distances ← lib.face_distance [profile_encoding] frame_encoding
    match distances.head? with
    | none => Except.error "index 0 is out of bounds for axis 0 with size 0"
    | some face_distance =>
      let similarity := 1 - face_distance
      return okObj similarity (decide (similarity ≥ 3/5))

/-- `match_faces`: the `try:` body wrapped in
`except Exception as e: return {"success": False, "error": str(e)}`. -/
def match_faces (lib : Lib) (frame_path profile_path : String) : JsonObj :=
  match match_facesE lib frame_path profile_path with
  | Except.ok obj => obj
  | Except.error e => errObj e

/-- The usage-error dict printed by the `__main__` guard. -/
def usageObj : JsonObj :=
  errObj "Usage: python3 face_matcher.py <frame_path> <profile_path>"

/-- The `__main__` block: given `sys.argv` (script name included), produce
the printed JSON object and the process exit status. -/
def cliMain (lib : Lib) (argv : List String) : JsonObj × Nat :=
  if argv.length ≠ 3 then
    (usageObj, 1)
  else
    (match_faces lib (argv.getD 1 "") (argv.getD 2 ""), 0)

/-- A deterministic concrete library for witnesses: the frame path maps to
image 0 and any other path to image 1, image 0 has encodings `fr`, image 1
has encodings `pr`, and every distance query returns `ds`. -/
def libAt (fr pr : List Nat) (ds : List ℚ) : Lib where
  load_image_file := fun path => Except.ok (if path = "frame" then 0 else 1)
  face_encodings := fun img => Except.ok (if img = 0 then fr else pr)
  face_distance := fun _ _ => Except.ok ds

/-- A concrete library whose very first call raises. -/
def libRaise (e : String) : Lib where
  load_image_file := fun _ => Except.error e
  face_encodings := fun _ => Except.error e
  face_distance := fun _ _ => Except.error e



/-- Shape analysis of the `try:` body: every run of `match_facesE` either
returns the success object, returns one of the error objects, or raises. -/
theorem match_facesE_shape (lib : Lib) (f p : String) :
    (∃ s m, match_facesE lib f p = Except.ok (okObj s m)) ∨
    (∃ e, match_facesE lib f p = Except.ok (errObj e)) ∨
    (∃ e, match_facesE lib f p = Except.error e) := by
  rcases hf : lib.load_image_file f with e | fi
  · exact Or.inr (Or.inr ⟨e, by simp [match_facesE, hf, bind, Except.bind]⟩)
  rcases hp : lib.load_image_file p with e | pi
  · exact Or.inr (Or.inr ⟨e, by simp [match_facesE, hf, hp, bind, Except.bind]⟩)
  rcases hef : lib.face_encodings fi with e | fs
  · exact Or.inr (Or.inr ⟨e, by simp [match_facesE, hf, hp, hef, bind, Except.bind]⟩)
  rcases hep : lib.face_encodings pi with e | ps
  · exact Or.inr (Or.inr ⟨e, by
      simp [match_facesE, hf, hp, hef, hep, bind, Except.bind]⟩)
  by_cases h0 : fs.length = 0
  · exact Or.inr (Or.inl ⟨"No face detected in verification video", by
      simp [match_facesE, hf, hp, hef, hep, h0, bind, Except.bind, pure, Except.pure]⟩)
  by_cases hq0 : ps.length = 0
  · exact Or.inr (Or.inl ⟨"No face detected in profile photo", by
      simp [match_facesE, hf, hp, hef, hep, h0, hq0, bind, Except.bind, pure, Except.pure]⟩)
  by_cases h1 : fs.length > 1
  · exact Or.inr (Or.inl ⟨"Multiple faces detected in video", by
      simp [match_facesE, hf, hp, hef, hep, h0, hq0, h1, bind, Except.bind, pure, Except.pure]⟩)
  rcases hd : lib.face_distance [ps.head?.getD 0] (fs.head?.getD 0) with e | ds
  · exact Or.inr (Or.inr ⟨e, by
      simp [match_facesE, hf, hp, hef, hep, h0, hq0, h1, hd, bind, Except.bind, pure, Except.pure]⟩)
  rcases ds with _ | ⟨d, rest⟩
  · exact Or.inr (Or.inr ⟨"index 0 is out of bounds for axis 0 with size 0", by
      simp [match_facesE, hf, hp, hef, hep, h0, hq0, h1, hd, bind, Except.bind, pure, Except.pure]⟩)
  · exact Or.inl ⟨1 - d, decide ((1:ℚ) - d ≥ 3/5), by
      simp [match_facesE, hf, hp, hef, hep, h0, hq0, h1, hd, bind, Except.bind, pure, Except.pure]⟩

/-- C2: when both images load, the frame yields zero face encodings and the
profile yields any list of encodings, `match_faces` returns exactly
`{"success": false, "error": "No face detected in verification video"}`,
whatever the profile encodings are. -/
theorem C2_frame_no_face (lib : Lib) (f p : String) (fi pi : Nat) (ps : List Nat)
    (hf : lib.load_image_file f = Except.ok fi)
    (hp : lib.load_image_file p = Except.ok pi)
    (hef : lib.face_encodings fi = Except.ok [])
    (hep : lib.face_encodings pi = Except.ok ps) :
    match_faces lib f p = errObj "No face detected in verification video" := by
  simp [match_faces, match_facesE, hf, hp, hef, hep, bind, Except.bind, pure,
    Except.pure]

/-- Witness for C2 at a concrete library: no face in the frame, one face in
the profile. -/
theorem C2_frame_no_face_witness :
    match_faces (libAt [] [20] []) "frame" "p" =
      errObj "No face detected in verification video" :=
  C2_frame_no_face (libAt [] [20] []) "frame" "p" 0 1 [20]
    (by simp [libAt]) (by simp [libAt]) (by simp [libAt]) (by simp [libAt])

/-- C3: when both images load, the frame yields at least one face encoding
and the profile yields zero, `match_faces` reports the profile-specific
error. -/
theorem C3_profile_no_face (lib : Lib) (f p : String) (fi pi : Nat) (fs : List Nat)
    (hf : lib.load_image_file f = Except.ok fi)
    (hp : lib.load_image_file p = Except.ok pi)
    (hef : lib.face_encodings fi = Except.ok fs)
    (hfs : fs ≠ [])
    (hep : lib.face_encodings pi = Except.ok []) :
    match_faces lib f p = errObj "No face detected in profile photo" := by
  simp [match_faces, match_facesE, hf, hp, hef, hep, List.length_eq_zero, hfs,
    bind, Except.bind, pure, Except.pure]

/-- Witness for C3 at a concrete library: one face in the frame, none in the
profile. -/
theorem C3_profile_no_face_witness :
    match_faces (libAt [10] [] []) "frame" "p" =
      errObj "No face detected in profile photo" :=
  C3_profile_no_face (libAt [10] [] []) "frame" "p" 0 1 [10]
    (by simp [libAt]) (by simp [libAt]) (by simp [libAt]) (by decide)
    (by simp [libAt])

/-- C4 counterexample: a frame with two detected faces and a profile with
zero; the script reports the profile error, not the multiple-faces error, so
"more than one face in the frame implies the multiple-faces error" fails as
stated. -/
theorem C4_counterexample :
    (libAt [10, 11] [] []).face_encodings 0 = Except.ok [10, 11] ∧
    match_faces (libAt [10, 11] [] []) "frame" "p" =
      errObj "No face detected in profile photo" ∧
    errObj "No face detected in profile photo" ≠
      errObj "Multiple faces detected in video" := by
  refine ⟨by simp [libAt], ?_, by decide⟩
  norm_num [match_faces, match_facesE, libAt, bind, Except.bind, pure,
    Except.pure]
  simp

/-- C4 as amended: when both images load, the frame yields more than one
face encoding and the profile yields at least one, `match_faces` reports the
multiple-faces error. -/
theorem C4_multiple_frame_faces (lib : Lib) (f p : String) (fi pi : Nat)
    (fs ps : List Nat)
    (hf : lib.load_image_file f = Except.ok fi)
    (hp : lib.load_image_file p = Except.ok pi)
    (hef : lib.face_encodings fi = Except.ok fs)
    (hfs : fs.length > 1)
    (hep : lib.face_encodings pi = Except.ok ps)
    (hps : ps ≠ []) :
    match_faces lib f p = errObj "Multiple faces detected in video" := by
  have h0 : ¬ fs.length = 0 := by omega
  simp [match_faces, match_facesE, hf, hp, hef, hep, h0, hfs,
    List.length_eq_zero, hps, bind, Except.bind, pure, Except.pure]

/-- Witness for amended C4 at a concrete library: two faces in the frame,
one in the profile. -/
theorem C4_multiple_frame_faces_witness :
    match_faces (libAt [10, 11] [20] []) "frame" "p" =
      errObj "Multiple faces detected in video" :=
  C4_multiple_frame_faces (libAt [10, 11] [20] []) "frame" "p" 0 1 [10, 11] [20]
    (by simp [libAt]) (by simp [libAt]) (by simp [libAt]) (by decide)
    (by simp [libAt]) (by decide)

/-- C10: the validation checks run in source order — frame-zero, then
profile-zero, then frame-multiple — so when two conditions hold at once the
earlier check's error is returned: frame-zero beats profile-zero, and
profile-zero beats frame-multiple. -/
theorem C10_check_precedence (lib : Lib) (f p : String) (fi pi : Nat)
    (hf : lib.load_image_file f = Except.ok fi)
    (hp : lib.load_image_file p = Except.ok pi) :
    (lib.face_encodings fi = Except.ok [] → lib.face_encodings pi = Except.ok [] →
      match_faces lib f p = errObj "No face detected in verification video") ∧
    (∀ fs, lib.face_encodings fi = Except.ok fs → fs.length > 1 →
      lib.face_encodings pi = Except.ok [] →
      match_faces lib f p = errObj "No face detected in profile photo") := by
  constructor
  · intro hef hep
    simp [match_faces, match_facesE, hf, hp, hef, hep, bind, Except.bind,
      pure, Except.pure]
  · intro fs hef hfs hep
    have h0 : ¬ fs.length = 0 := by omega
    simp [match_faces, match_facesE, hf, hp, hef, hep, h0, bind, Except.bind,
      pure, Except.pure]

/-- Witness for C10: with no faces anywhere the frame error wins, and with
two frame faces and an empty profile the profile error wins. -/
theorem C10_check_precedence_witness :
    match_faces (libAt [] [] []) "frame" "p" =
      errObj "No face detected in verification video" ∧
    match_faces (libAt [10, 11] [] []) "frame" "p" =
      errObj "No face detected in profile photo" := by
  constructor
  · exact (C10_check_precedence (libAt [] [] []) "frame" "p" 0 1
      (by simp [libAt]) (by simp [libAt])).1 (by simp [libAt]) (by simp [libAt])
  · exact (C10_check_precedence (libAt [10, 11] [] []) "frame" "p" 0 1
      (by simp [libAt]) (by simp [libAt])).2 [10, 11] (by simp [libAt])
      (by decide) (by simp [libAt])

/-- C1 counterexample: a library run detecting exactly one face in each
image but reporting face distance 3/2 makes `match_faces` return success
with similarity -1/2, which is outside [0,1]; the claim's "similarity lies
in [0,1]" fails as stated because the script never clamps `1 - distance`. -/
theorem C1_counterexample :
    (libAt [10] [20] [3/2]).face_encodings 0 = Except.ok [10] ∧
    (libAt [10] [20] [3/2]).face_encodings 1 = Except.ok [20] ∧
    match_faces (libAt [10] [20] [3/2]) "frame" "p" = okObj (-(1/2)) false ∧
    ¬ ((0:ℚ) ≤ -(1/2)) := by
  refine ⟨by simp [libAt], by simp [libAt], ?_, by norm_num⟩
  norm_num [match_faces, match_facesE, libAt, okObj, bind, Except.bind, pure,
    Except.pure]
  simp

/-- C1 as amended: with exactly one detected face in each image and a face
distance d, `match_faces` returns success with similarity `1 - d` and
`match` the boolean of `similarity ≥ 0.6`; the similarity lies in [0,1]
exactly when the reported distance lies in [0,1]. -/
theorem C1_one_face_each (lib : Lib) (f p : String) (fi pi fe pe : Nat)
    (d : ℚ) (ds : List ℚ)
    (hf : lib.load_image_file f = Except.ok fi)
    (hp : lib.load_image_file p = Except.ok pi)
    (hef : lib.face_encodings fi = Except.ok [fe])
    (hep : lib.face_encodings pi = Except.ok [pe])
    (hd : lib.face_distance [pe] fe = Except.ok (d :: ds)) :
    match_faces lib f p = okObj (1 - d) (decide (1 - d ≥ 3/5)) ∧
    ((0 ≤ 1 - d ∧ 1 - d ≤ 1) ↔ (0 ≤ d ∧ d ≤ 1)) := by
  constructor
  · simp [match_faces, match_facesE, hf, hp, hef, hep, hd, bind, Except.bind,
      pure, Except.pure]
  · constructor <;> rintro ⟨h1, h2⟩ <;> exact ⟨by linarith, by linarith⟩

/-- Witness for amended C1 at a concrete library: one face in each image,
distance 1/5, so similarity 4/5 is in [0,1] and the match flag is set. -/
theorem C1_one_face_each_witness :
    match_faces (libAt [10] [20] [1/5]) "frame" "p" = okObj (4/5) true ∧
    ((0:ℚ) ≤ 4/5 ∧ (4/5:ℚ) ≤ 1) := by
  have h := C1_one_face_each (libAt [10] [20] [1/5]) "frame" "p" 0 1 10 20
    (1/5) [] (by simp [libAt]) (by simp [libAt]) (by simp [libAt])
    (by simp [libAt]) (by simp [libAt])
  refine ⟨?_, by norm_num, by norm_num⟩
  rw [h.1]
  norm_num [okObj]

/-- C9: a profile with two or more detected faces is never an error — with
exactly one face in the frame and profile encodings `p0 :: rest`, the script
succeeds and the distance it uses is the one the library reports for the
singleton list `[p0]`, i.e. the first profile encoding only. -/
theorem C9_first_profile_encoding (lib : Lib) (f p : String) (fi pi fe p0 : Nat)
    (rest : List Nat) (d : ℚ) (ds : List ℚ)
    (hf : lib.load_image_file f = Except.ok fi)
    (hp : lib.load_image_file p = Except.ok pi)
    (hef : lib.face_encodings fi = Except.ok [fe])
    (hep : lib.face_encodings pi = Except.ok (p0 :: rest))
    (_hrest : rest ≠ [])
    (hd : lib.face_distance [p0] fe = Except.ok (d :: ds)) :
    match_faces lib f p = okObj (1 - d) (decide (1 - d ≥ 3/5)) := by
  simp [match_faces, match_facesE, hf, hp, hef, hep, hd, bind, Except.bind,
    pure, Except.pure]

/-- Witness for C9 at a concrete library: two profile faces, distance 1/2 to
the first one, result success with similarity 1/2 and no match. -/
theorem C9_first_profile_encoding_witness :
    match_faces (libAt [10] [20, 21] [1/2]) "frame" "p" =
      okObj (1/2) false := by
  have h := C9_first_profile_encoding (libAt [10] [20, 21] [1/2]) "frame" "p"
    0 1 10 20 [21] (1/2) [] (by simp [libAt]) (by simp [libAt])
    (by simp [libAt]) (by simp [libAt]) (by decide) (by simp [libAt])
  rw [h]
  norm_num [okObj]

/-- C5: the `__main__` guard exits with status 1 and prints the usage-error
object exactly when the argument count is wrong; with the right count it
exits 0 and prints the `match_faces` result, whatever the library did. -/
theorem C5_cli_exit (lib : Lib) (argv : List String) :
    (argv.length ≠ 3 → cliMain lib argv = (usageObj, 1)) ∧
    (argv.length = 3 →
      cliMain lib argv = (match_faces lib (argv.getD 1 "") (argv.getD 2 ""), 0)) := by
  constructor <;> intro h <;> simp [cliMain, h]

/-- Witness for C5: one argument gives the usage error and exit 1; two
arguments with a library that raises still exit 0, the failure being
reported in the JSON instead. -/
theorem C5_cli_exit_witness :
    cliMain (libRaise "boom") ["face_matcher.py"] = (usageObj, 1) ∧
    cliMain (libRaise "boom") ["face_matcher.py", "a", "b"] =
      (errObj "boom", 0) := by
  constructor
  · exact (C5_cli_exit (libRaise "boom") ["face_matcher.py"]).1 (by decide)
  · have h := (C5_cli_exit (libRaise "boom")
      ["face_matcher.py", "a", "b"]).2 (by decide)
    rw [h]
    simp [match_faces, match_facesE, libRaise, bind, Except.bind]

/-- C6: `match_faces` is total over every library behaviour — the result
always carries a boolean `success` field, and whenever that field is false
the result also carries an `error` string; no failure escapes as an
exception. -/
theorem C6_failures_reported (lib : Lib) (f p : String) :
    getField (match_faces lib f p) "success" = some (JsonVal.bool true) ∨
    (getField (match_faces lib f p) "success" = some (JsonVal.bool false) ∧
      ∃ e, getField (match_faces lib f p) "error" = some (JsonVal.str e)) := by
  rcases match_facesE_shape lib f p with ⟨s, m, h⟩ | ⟨e, h⟩ | ⟨e, h⟩
  · left
    simp [match_faces, h, getField, okObj]
  · right
    have hm : match_faces lib f p = errObj e := by simp [match_faces, h]
    exact ⟨by simp [hm, getField, errObj], e, by simp [hm, getField, errObj]⟩
  · right
    have hm : match_faces lib f p = errObj e := by simp [match_faces, h]
    exact ⟨by simp [hm, getField, errObj], e, by simp [hm, getField, errObj]⟩

/-- C7: every result of `match_faces` has exactly one of the two dict
shapes of the script — on success exactly the fields `success = true`,
`similarity` (a number) and `match` (a boolean); on failure exactly the
fields `success = false` and `error` (a string). -/
theorem C7_result_shape (lib : Lib) (f p : String) :
    (∃ s m, match_faces lib f p = okObj s m) ∨
    (∃ e, match_faces lib f p = errObj e) := by
  rcases match_facesE_shape lib f p with ⟨s, m, h⟩ | ⟨e, h⟩ | ⟨e, h⟩
  · exact Or.inl ⟨s, m, by simp [match_faces, h]⟩
  · exact Or.inr ⟨e, by simp [match_faces, h]⟩
  · exact Or.inr ⟨e, by simp [match_faces, h]⟩

/-- C8: whenever the `try:` body raises an exception `e` at any point, the
`except` clause returns exactly `{"success": false, "error": str(e)}`, the
exception message passed through unmodified. -/
theorem C8_exception_passthrough (lib : Lib) (f p : String) (e : String)
    (h : match_facesE lib f p = Except.error e) :
    match_faces lib f p = errObj e := by
  simp [match_faces, h]

/-- Witness for C8: a library whose first call raises "boom" makes
`match_faces` return the error object carrying exactly "boom". -/
theorem C8_exception_passthrough_witness :
    match_faces (libRaise "boom") "f" "p" = errObj "boom" :=
  C8_exception_passthrough (libRaise "boom") "f" "p" "boom"
    (by simp [match_facesE, libRaise, bind, Except.bind])

end FaceMatcher
